import Mathlib

/-!
Verification of the obsidi-backup repository's restore and bootstrap logic
against its natural-language specification.

The Python modules `vault_backup/restore.py`, `vault_backup/restore_cli.py`
and `vault_backup/__main__.py` are shallowly embedded below.  External
effects are made explicit:

* `run_cmd` (the subprocess wrapper, an external collaborator) becomes a
  function argument `exec : Exec` mapping a command line and an optional
  working directory to its `CmdResult` (return code and stdout);
* the filesystem written by restore operations becomes a flat map
  `FS := String → Option String` from target path to file content
  (directory creation by `mkdir(parents=True)` has no observable effect in
  this map and is not modelled separately);
* Python's `json.loads` (standard library) becomes a function argument
  `jsonParse : String → Option JVal`, `none` modelling `JSONDecodeError`;
* Python runtime exceptions raised by the embedded code itself
  (`KeyError`, `TypeError`, `AttributeError`, `ValueError`,
  `FileNotFoundError`) become an `Except PyErr` result.
-/

namespace VaultBackup

/-- Result of one external command invocation, mirroring the fields of
`subprocess.CompletedProcess` that `restore.py` reads. -/
structure CmdResult where
  returncode : Int
  stdout : String

/-- The `run_cmd` collaborator: a command line and an optional working
directory (`cwd`) give a completed process. -/
def Exec : Type := List String → Option String → CmdResult

/-- A flat filesystem: target path to file content. -/
def FS : Type := String → Option String

/-- Python whitespace (the ASCII characters stripped by `str.strip()`). -/
def isPySpace (c : Char) : Bool :=
  c = ' ' || c = '\t' || c = '\n' || c = '\r' || c = '\x0b' || c = '\x0c'

/-- Python `s.strip()`: remove leading and trailing whitespace. -/
def pyStrip (s : String) : String :=
  String.mk (((s.data.dropWhile isPySpace).reverse.dropWhile isPySpace).reverse)

/-- Python `s.rstrip("/")`: remove all trailing slashes. -/
def rstripSlash (s : String) : String :=
  String.mk ((s.data.reverse.dropWhile (fun c => c = '/')).reverse)

/-- Python `needle in hay` for strings: substring containment. -/
def strContains (hay needle : String) : Bool :=
  (List.range (hay.length + 1)).any
    (fun i => (hay.data.drop i).take needle.length == needle.data)

/-- One step of splitting a character list on newlines (fold from the
right, the accumulator always holds at least one piece). -/
def splitNlAux (c : Char) (acc : List (List Char)) : List (List Char) :=
  if c = '\n' then [] :: acc
  else
    match acc with
    | [] => [[c]]
    | h :: t => (c :: h) :: t

/-- Python `s.split("\n")`: split on every newline, keeping empty pieces
(`"".split("\n") == [""]`). -/
def pySplitNl (s : String) : List String :=
  (s.data.foldr splitNlAux [[]]).map String.mk

/-- Python `t.startswith(s)`. -/
def strStartsWith (t s : String) : Bool :=
  s.data.isPrefixOf t.data

-- --- Source detection (`restore.py`, `detect_source`) ---

/-- `all(c in "0123456789abcdef" for c in source)` from `detect_source`. -/
def is_hex (source : String) : Bool :=
  source.data.all (fun c => "0123456789abcdef".data.contains c)

/-- `detect_source` from `restore.py`: classify a source identifier as a git
commit ("git"), a restic snapshot ("restic"), or ambiguous ("ambiguous"). -/
def detect_source (source : String) : String :=
  if source.length = 40 ∧ is_hex source = true then "git"
  else if source.length = 8 ∧ is_hex source = true then "ambiguous"
  else if is_hex source = true ∧ 7 ≤ source.length ∧ source.length ≤ 40 then "git"
  else "restic"

/-- Python exceptions raised by the embedded code. -/
inductive PyErr where
  | valueError (msg : String)
  | fileNotFoundError (msg : String)
  | keyError (key : String)
  | typeError
  | attributeError

-- --- Git operations (`restore.py`) ---

/-- A git commit entry (the `GitCommit` dataclass). -/
structure GitCommit where
  hash : String
  short_hash : String
  date : String
  message : String

/-- The `_GIT_LOG_FORMAT` constant. -/
def _GIT_LOG_FORMAT : String := "%H%n%h%n%aI%n%s"

/-- The loop of `_parse_git_log`: `for i in range(0, len(lines) - 3, 4)`
steps by 4 and its bound `i < len(lines) - 3` guarantees each group of four
consecutive lines (hash, short hash, date, message) is complete, so the loop
is exactly this recursion consuming four lines per step. -/
def parseGitLogLines : List String → List GitCommit
  | a :: b :: c :: d :: rest =>
      { hash := a, short_hash := b, date := c, message := d } :: parseGitLogLines rest
  | _ => []

/-- `_parse_git_log` from `restore.py`: split the stripped output on newlines
and build one commit record per group of four consecutive lines. -/
def _parse_git_log (output : String) : List GitCommit :=
  parseGitLogLines (pySplitNl (pyStrip output))

/-- The command line issued by `git_log`. -/
def gitLogCmd (count : Nat) : List String :=
  ["git", "log", "--format=" ++ _GIT_LOG_FORMAT, "-" ++ toString count]

/-- `git_log` from `restore.py`: list recent commits; empty on a nonzero
exit status or empty output. -/
def git_log (exec : Exec) (vault_path : String) (count : Nat) : List GitCommit :=
  let result := exec (gitLogCmd count) (some vault_path)
  if result.returncode ≠ 0 ∨ pyStrip result.stdout = "" then []
  else _parse_git_log result.stdout

/-- The command line issued by `git_show_file`. -/
def gitShowCmd (commit filepath : String) : List String :=
  ["git", "show", commit ++ ":" ++ filepath]

/-- `git_show_file` from `restore.py`: the command's stdout on exit status 0,
`FileNotFoundError` on a nonzero exit status. -/
def git_show_file (exec : Exec) (vault_path commit filepath : String) :
    Except PyErr String :=
  let result := exec (gitShowCmd commit filepath) (some vault_path)
  if result.returncode ≠ 0 then
    .error (.fileNotFoundError s!"File '{filepath}' not found at commit {commit}")
  else .ok result.stdout

/-- `git_restore_file` from `restore.py`: fetch the content via
`git_show_file`, write it to `target`, return the target path. -/
def git_restore_file (exec : Exec) (fs : FS) (vault_path commit filepath target : String) :
    Except PyErr (String × FS) :=
  match git_show_file exec vault_path commit filepath with
  | .error e => .error e
  | .ok content => .ok (target, fun p => if p = target then some content else fs p)

-- --- Restic dump / restore (`restore.py`) ---

/-- The command line issued by `restic_show_file` and `restic_restore_file`. -/
def resticDumpCmd (snapshot_id filepath : String) : List String :=
  ["restic", "dump", snapshot_id, filepath]

/-- `restic_show_file` from `restore.py`: the dump's stdout on exit status 0,
`FileNotFoundError` on a nonzero exit status. -/
def restic_show_file (exec : Exec) (snapshot_id filepath : String) :
    Except PyErr String :=
  let result := exec (resticDumpCmd snapshot_id filepath) none
  if result.returncode ≠ 0 then
    .error (.fileNotFoundError s!"File '{filepath}' not found in snapshot {snapshot_id}")
  else .ok result.stdout

/-- `restic_restore_file` from `restore.py`: run `restic dump`, write its
stdout to `target`, return the target path; `FileNotFoundError` on a nonzero
exit status. -/
def restic_restore_file (exec : Exec) (fs : FS) (snapshot_id filepath target : String) :
    Except PyErr (String × FS) :=
  let result := exec (resticDumpCmd snapshot_id filepath) none
  if result.returncode ≠ 0 then
    .error (.fileNotFoundError s!"Failed to restore '{filepath}' from snapshot {snapshot_id}")
  else .ok (target, fun p => if p = target then some result.stdout else fs p)

/-- The empty filesystem, used by concrete witnesses. -/
def emptyFS : FS := fun _ => none

/-- A command executor whose every invocation succeeds with a fixed stdout,
used by concrete witnesses. -/
def execConst (out : String) : Exec := fun _ _ => ⟨0, out⟩

/-- A command executor whose every invocation fails with exit status 1,
used by concrete witnesses. -/
def execFail : Exec := fun _ _ => ⟨1, ""⟩

-- --- Process bootstrap (`__main__.py`) ---

/-- The `required` list of `validate_environment`. -/
def requiredEnvVars : List String := ["RESTIC_REPOSITORY", "RESTIC_PASSWORD"]

/-- Python truthiness test `not os.environ.get(var)`: true exactly when the
variable is unset or set to the empty string. -/
def envMissing (env : String → Option String) (var : String) : Bool :=
  match env var with
  | none => true
  | some s => s == ""

/-- `validate_environment` from `__main__.py`: collect the required
variables that are unset or empty; if any, `sys.exit(1)` (modelled as
`.error 1`), otherwise return normally. -/
def validate_environment (env : String → Option String) : Except Nat Unit :=
  let missing := requiredEnvVars.filter (fun var => envMissing env var)
  if missing ≠ [] then .error 1 else .ok ()

/-- The `defaults` dict of `initialize_state_dir`, in insertion order. -/
def state_defaults : List (String × String) :=
  [("last_commit", "0"), ("last_backup", "0"), ("last_change", "0"),
   ("pending_changes", "false")]

/-- One iteration of `initialize_state_dir`'s loop: write the default value
only when the state file does not already exist. -/
def writeIfAbsent (fs : FS) (kv : String × String) : FS :=
  if (fs kv.1).isSome then fs
  else fun q => if q = kv.1 then some kv.2 else fs q

/-- `initialize_state_dir` from `__main__.py`: for each of the four marker
files, write its default only if the file does not already exist (the state
directory is the flat map `FS`; `mkdir` has no content effect there). -/
def initialize_state_dir (fs : FS) : FS :=
  state_defaults.foldl writeIfAbsent fs

-- --- JSON values and the Python operations `restore.py` applies to them ---

/-- A JSON value as produced by `json.loads`; objects keep key order. -/
inductive JVal where
  | jnull
  | jbool (b : Bool)
  | jnum (n : Int)
  | jstr (s : String)
  | jarr (xs : List JVal)
  | jobj (fields : List (String × JVal))

/-- The `json.loads` collaborator (Python standard library): `none` models a
`JSONDecodeError`. -/
def JsonParse : Type := String → Option JVal

/-- Lookup of a key in a parsed JSON object (its ordered field list). -/
def objLookup (fields : List (String × JVal)) (key : String) : Option JVal :=
  (fields.find? (fun kv => kv.1 == key)).map Prod.snd

/-- Python `v == key` for a string right-hand side: true only for an equal
string (a number, array, object, boolean or null never equals a str). -/
def pyEqStr (v : JVal) (key : String) : Bool :=
  match v with
  | .jstr t => t == key
  | _ => false

/-- Python `key in v`: key containment for a dict, membership for a list,
substring test for a str, `TypeError` for any other value. -/
def pyIn (v : JVal) (key : String) : Except PyErr Bool :=
  match v with
  | .jobj fields => .ok (fields.any (fun kv => kv.1 == key))
  | .jarr xs => .ok (xs.any (fun x => pyEqStr x key))
  | .jstr t => .ok (strContains t key)
  | _ => .error .typeError

/-- Python `v[key]` for a string key: dict lookup (`KeyError` when the key
is absent), `TypeError` on any non-dict value. -/
def pySubscript (v : JVal) (key : String) : Except PyErr JVal :=
  match v with
  | .jobj fields =>
    match fields.find? (fun kv => kv.1 == key) with
    | some kv => .ok kv.2
    | none => .error (.keyError key)
  | _ => .error .typeError

/-- Python `v.get(key, default)`: dict lookup with a default;
`AttributeError` on any non-dict value (only dicts have `.get`). -/
def pyGet (v : JVal) (key : String) (dflt : JVal) : Except PyErr JVal :=
  match v with
  | .jobj fields => .ok ((objLookup fields key).getD dflt)
  | _ => .error .attributeError

/-- Python `v[:8]`: slicing, defined for str and list, `TypeError` for any
other value. -/
def pySliceTo8 (v : JVal) : Except PyErr JVal :=
  match v with
  | .jstr s => .ok (.jstr (String.mk (s.data.take 8)))
  | .jarr xs => .ok (.jarr (xs.take 8))
  | _ => .error .typeError

/-- Python `for x in v`: the elements of a list, the keys of a dict, the
one-character strings of a str, `TypeError` for any other value. -/
def pyIterate (v : JVal) : Except PyErr (List JVal) :=
  match v with
  | .jarr xs => .ok xs
  | .jobj fields => .ok (fields.map (fun kv => .jstr kv.1))
  | .jstr t => .ok (t.data.map (fun c => .jstr (String.mk [c])))
  | _ => .error .typeError

/-- Python `v.startswith(s)`: defined on str, `AttributeError` on any other
value. -/
def pyStartswith (v : JVal) (s : String) : Except PyErr Bool :=
  match v with
  | .jstr t => .ok (strStartsWith t s)
  | _ => .error .attributeError

-- --- Restic snapshots (`restore.py`, `restic_snapshots`) ---

/-- A restic snapshot record (the `ResticSnapshot` dataclass); at runtime a
Python dataclass stores whatever values the comprehension passes, so the
fields are JSON values. -/
structure ResticSnapshot where
  id : JVal
  short_id : JVal
  time : JVal
  paths : JVal
  tags : JVal

/-- One element of `restic_snapshots`' list comprehension, with Python's
left-to-right, eager evaluation of the constructor arguments: `s["id"]`,
then the default argument `s["id"][:8]` (evaluated even when "short_id" is
present), then `s.get("short_id", …)`, `s["time"]`, `s.get("paths", [])`,
`s.get("tags", [])`. -/
def snapshot_of_item (s : JVal) : Except PyErr ResticSnapshot := do
  let idv ← pySubscript s "id"
  let dflt ← pySliceTo8 (← pySubscript s "id")
  let shortv ← pyGet s "short_id" dflt
  let timev ← pySubscript s "time"
  let pathsv ← pyGet s "paths" (.jarr [])
  let tagsv ← pyGet s "tags" (.jarr [])
  return ⟨idv, shortv, timev, pathsv, tagsv⟩

/-- The command line issued by `restic_snapshots` (`--tag` only for a
truthy, i.e. non-empty, tag). -/
def resticSnapshotsCmd (tag : String) : List String :=
  if tag ≠ "" then ["restic", "snapshots", "--json", "--tag", tag]
  else ["restic", "snapshots", "--json"]

/-- The body of `restic_snapshots`' list comprehension: one record per
iterated item, left to right, the first raising item aborting. -/
def snapshots_of_items : List JVal → Except PyErr (List ResticSnapshot)
  | [] => .ok []
  | s :: rest => do
    let snap ← snapshot_of_item s
    let tail ← snapshots_of_items rest
    return snap :: tail

/-- `restic_snapshots` from `restore.py`: empty list on a nonzero exit
status, empty output, or a JSON parse failure; otherwise the list
comprehension over the parsed value. -/
def restic_snapshots (exec : Exec) (jsonParse : JsonParse) (tag : String) :
    Except PyErr (List ResticSnapshot) :=
  let result := exec (resticSnapshotsCmd tag) none
  if result.returncode ≠ 0 ∨ pyStrip result.stdout = "" then .ok []
  else
    match jsonParse result.stdout with
    | none => .ok []
    | some entries => do
      let items ← pyIterate entries
      snapshots_of_items items

/-- The shape of a restic snapshot JSON element that the comprehension
consumes without raising, as restic emits it: an object with a string "id"
and a "time" field. -/
def GoodSnapItem (s : JVal) : Prop :=
  ∃ fields idStr timev, s = .jobj fields ∧
    objLookup fields "id" = some (.jstr idStr) ∧
    objLookup fields "time" = some timev

/-- The record `restic_snapshots` builds from a well-shaped element:
"short_id" defaults to the first 8 characters of the id, "paths" and "tags"
to empty lists. -/
def goodSnapshot (s : JVal) : ResticSnapshot :=
  match s with
  | .jobj fields =>
    let idv := (objLookup fields "id").getD .jnull
    { id := idv
      short_id := (objLookup fields "short_id").getD
        (match idv with
         | .jstr t => .jstr (String.mk (t.data.take 8))
         | .jarr xs => .jarr (xs.take 8)
         | v => v)
      time := (objLookup fields "time").getD .jnull
      paths := (objLookup fields "paths").getD (.jarr [])
      tags := (objLookup fields "tags").getD (.jarr []) }
  | _ => ⟨.jnull, .jnull, .jnull, .jarr [], .jarr []⟩

/-- A command executor that succeeds printing the valid JSON array holding
one empty object (the text between the brackets is an opening and a closing
curly brace). -/
def execSnapEmptyObj : Exec := fun _ _ => ⟨0, "[\x7b\x7d]"⟩

/-- `json.loads` on the one input `execSnapEmptyObj` produces: the array of
one empty object. -/
def jsonParseEmptyObjArr : JsonParse :=
  fun s => if s = "[\x7b\x7d]" then some (.jarr [.jobj []]) else none

-- --- Restic ls (`restore.py`, `restic_ls`) ---

/-- A restic file entry (the `ResticEntry` dataclass); fields are whatever
JSON values `obj.get` returns. -/
structure ResticEntry where
  path : JVal
  type : JVal
  size : JVal
  mtime : JVal

/-- The entry built from one parsed line: `obj.get("path", "")`,
`obj.get("type", "file")`, `obj.get("size", 0)`, `obj.get("mtime", "")`. -/
def entry_of_obj (obj : JVal) : Except PyErr ResticEntry := do
  let pathv ← pyGet obj "path" (.jstr "")
  let typev ← pyGet obj "type" (.jstr "file")
  let sizev ← pyGet obj "size" (.jnum 0)
  let mtimev ← pyGet obj "mtime" (.jstr "")
  return ⟨pathv, typev, sizev, mtimev⟩

/-- Processing of one parsed line of `restic ls` output:
`if "struct_type" in obj and obj["struct_type"] == "snapshot": continue`
(the metadata line, `none`), else the entry is appended. -/
def restic_ls_line (obj : JVal) : Except PyErr (Option ResticEntry) := do
  let mem ← pyIn obj "struct_type"
  if mem then
    let v ← pySubscript obj "struct_type"
    if pyEqStr v "snapshot" then
      return none
    else
      return some (← entry_of_obj obj)
  else
    return some (← entry_of_obj obj)

/-- The line loop of `restic_ls`: blank lines and lines `json.loads`
rejects are skipped; each remaining line contributes through
`restic_ls_line`, entries appended in order to the accumulator. -/
def restic_ls_lines (jsonParse : JsonParse) :
    List String → List ResticEntry → Except PyErr (List ResticEntry)
  | [], acc => .ok acc
  | line :: rest, acc =>
    if pyStrip line = "" then restic_ls_lines jsonParse rest acc
    else
      match jsonParse line with
      | none => restic_ls_lines jsonParse rest acc
      | some obj =>
        match restic_ls_line obj with
        | .error e => .error e
        | .ok none => restic_ls_lines jsonParse rest acc
        | .ok (some e) => restic_ls_lines jsonParse rest (acc ++ [e])

/-- The path filter of `restic_ls`: the comprehension
`[e for e in entries if e.path.startswith(normalized)]`, evaluated left to
right with errors propagating at the first offending element. -/
def filterByPath : List ResticEntry → String → Except PyErr (List ResticEntry)
  | [], _ => .ok []
  | e :: rest, normalized => do
    let keep ← pyStartswith e.path normalized
    let tail ← filterByPath rest normalized
    return (if keep then e :: tail else tail)

/-- The command line issued by `restic_ls`. -/
def resticLsCmd (snapshot_id : String) : List String :=
  ["restic", "ls", "--json", snapshot_id]

/-- `restic_ls` from `restore.py`: `ValueError` on a nonzero exit status;
otherwise one entry per kept line and, when `path != "/"`, only entries
whose path starts with `path.rstrip("/")`. -/
def restic_ls (exec : Exec) (jsonParse : JsonParse) (snapshot_id path : String) :
    Except PyErr (List ResticEntry) :=
  let result := exec (resticLsCmd snapshot_id) none
  if result.returncode ≠ 0 then
    .error (.valueError s!"Snapshot '{snapshot_id}' not found")
  else do
    let entries ← restic_ls_lines jsonParse (pySplitNl (pyStrip result.stdout)) []
    if path ≠ "/" then
      filterByPath entries (rstripSlash path)
    else
      return entries

/-- The metadata test of `restic_ls` specialized to an object line:
`"struct_type" in obj and obj["struct_type"] == "snapshot"`. -/
def isSnapshotMeta (fields : List (String × JVal)) : Bool :=
  fields.any (fun kv => kv.1 == "struct_type") &&
    pyEqStr ((objLookup fields "struct_type").getD .jnull) "snapshot"

/-- The entry `restic_ls` builds from an object line (never raising). -/
def objEntry (fields : List (String × JVal)) : ResticEntry :=
  { path := (objLookup fields "path").getD (.jstr "")
    type := (objLookup fields "type").getD (.jstr "file")
    size := (objLookup fields "size").getD (.jnum 0)
    mtime := (objLookup fields "mtime").getD (.jstr "") }

/-- The contribution of one line of `restic ls` output to the entry list,
for lines that are blank, malformed, or parse to a JSON object. -/
def lineEntry (jsonParse : JsonParse) (line : String) : Option ResticEntry :=
  if pyStrip line = "" then none
  else
    match jsonParse line with
    | some (.jobj fields) =>
      if isSnapshotMeta fields then none else some (objEntry fields)
    | _ => none

/-- A command executor that succeeds printing the single well-formed JSON
line `5` (a number, not an object). -/
def execLsNum : Exec := fun _ _ => ⟨0, "5"⟩

/-- `json.loads` on the one input `execLsNum` produces: the number 5. -/
def jsonParseNum : JsonParse := fun s => if s = "5" then some (.jnum 5) else none

-- --- The restore subcommand (`restore_cli.py`, `cmd_restore`) ---

/-- The outcome of one `cmd_restore` invocation: lines printed to stdout and
stderr, the exit status (`some 1` models `sys.exit(1)`), the resulting
filesystem, and the external command lines issued, in order. -/
structure CliOutcome where
  out_lines : List String
  err_lines : List String
  exit_code : Option Nat
  fs : FS
  calls : List (List String)

/-- The message of a raised error as printed by `restore_cli.py`. -/
def pyErrMsg : PyErr → String
  | .valueError m => m
  | .fileNotFoundError m => m
  | .keyError k => k
  | .typeError => "TypeError"
  | .attributeError => "AttributeError"

/-- `cmd_restore` from `restore_cli.py`, with the vault path resolved and
the output target computed.  In the ambiguous branch the git restore is
attempted first; only on its `FileNotFoundError` is the restic restore
attempted; if both fail the command prints an error and exits with status 1.
`calls` records the underlying commands actually run, in order. -/
def cmd_restore (exec : Exec) (fs : FS) (vault source filepath output : String) :
    CliOutcome :=
  if detect_source source = "ambiguous" then
    match git_restore_file exec fs vault source filepath output with
    | .ok (_, fs') =>
      ⟨[s!"Restored {filepath} from git commit {source} -> {output}"], [], none, fs',
        [gitShowCmd source filepath]⟩
    | .error _ =>
      match restic_restore_file exec fs source filepath output with
      | .ok (_, fs') =>
        ⟨[s!"Restored {filepath} from restic snapshot {source} -> {output}"], [], none, fs',
          [gitShowCmd source filepath, resticDumpCmd source filepath]⟩
      | .error _ =>
        ⟨[], [s!"error: '{filepath}' not found in git commit or restic snapshot '{source}'"],
          some 1, fs, [gitShowCmd source filepath, resticDumpCmd source filepath]⟩
  else if detect_source source = "git" then
    match git_restore_file exec fs vault source filepath output with
    | .ok (_, fs') =>
      ⟨[s!"Restored {filepath} from git commit {source} -> {output}"], [], none, fs',
        [gitShowCmd source filepath]⟩
    | .error e =>
      ⟨[], ["error: " ++ pyErrMsg e], some 1, fs, [gitShowCmd source filepath]⟩
  else
    match restic_restore_file exec fs source filepath output with
    | .ok (_, fs') =>
      ⟨[s!"Restored {filepath} from restic snapshot {source} -> {output}"], [], none, fs',
        [resticDumpCmd source filepath]⟩
    | .error e =>
      ⟨[], ["error: " ++ pyErrMsg e], some 1, fs, [resticDumpCmd source filepath]⟩

-- --- Concrete fixtures used by witnesses ---

/-- A restic entry under `/vault/notes`. -/
def entryNotes : ResticEntry :=
  ⟨.jstr "/vault/notes/daily.md", .jstr "file", .jnum 100, .jstr ""⟩

/-- A restic entry in a sibling directory whose name merely extends the
filter path `/vault/notes`. -/
def entrySibling : ResticEntry :=
  ⟨.jstr "/vault/notes-old/x.md", .jstr "file", .jnum 5, .jstr ""⟩

/-- A restic entry outside the filter path. -/
def entryTemplates : ResticEntry :=
  ⟨.jstr "/vault/templates/t.md", .jstr "file", .jnum 50, .jstr ""⟩

/-- A one-snapshot JSON array as restic prints it (curly braces written as
hex escapes), with no "short_id" field. -/
def snapJson : String :=
  "[\x7b\"id\": \"abcdef1234567890\", \"time\": \"2025-01-15T00:00:00Z\", \"paths\": [], \"tags\": []\x7d]"

/-- A command executor that succeeds printing `snapJson`. -/
def execSnapOne : Exec := fun _ _ => ⟨0, snapJson⟩

/-- The parsed fields of `snapJson`'s one element. -/
def snapOneFields : List (String × JVal) :=
  [("id", .jstr "abcdef1234567890"), ("time", .jstr "2025-01-15T00:00:00Z"),
   ("paths", .jarr []), ("tags", .jarr [])]

/-- `json.loads` on the one input `execSnapOne` produces. -/
def jsonParseSnapOne : JsonParse :=
  fun s => if s = snapJson then some (.jarr [.jobj snapOneFields]) else none

/-- Modelled from the spec: the identifier-disambiguation rule of section 6 of
the specification, written directly from its words — a 40-character
hexadecimal string is a version-control ("git") identifier; an
exactly-8-character hexadecimal string is ambiguous; a 7–39 character
hexadecimal string (excluding exactly 8) is a version-control identifier; any
non-hexadecimal or out-of-range string is a snapshot-store ("restic")
identifier. -/
def spec_classify (s : String) : String :=
  if is_hex s = true ∧ s.length = 40 then "git"
  else if is_hex s = true ∧ s.length = 8 then "ambiguous"
  else if is_hex s = true ∧ 7 ≤ s.length ∧ s.length ≤ 39 then "git"
  else "restic"

end VaultBackup

namespace VaultBackup

/-- C1: for every input string, `detect_source` classifies exactly as the
spec's identifier-disambiguation rule dictates: 40-character hex is "git",
exactly-8-character hex is "ambiguous", hex of length 7–39 other than 8 is
"git", and every non-hexadecimal or out-of-range string is "restic". -/
theorem detect_source_matches_spec (s : String) :
    detect_source s = spec_classify s := by
  unfold detect_source spec_classify
  by_cases hx : is_hex s = true
  · simp only [hx, true_and, and_true]
    split_ifs <;> first | rfl | omega
  · simp [hx]

-- --- Helper lemmas on git log parsing ---

lemma parseGitLogLines_length : ∀ ls : List String,
    (parseGitLogLines ls).length = ls.length / 4
  | [] => by simp [parseGitLogLines]
  | [_] => by simp [parseGitLogLines]
  | [_, _] => by simp [parseGitLogLines]
  | [_, _, _] => by simp [parseGitLogLines]
  | _ :: _ :: _ :: _ :: rest => by
      have ih := parseGitLogLines_length rest
      simp [parseGitLogLines, ih]
      omega

lemma parseGitLogLines_get? : ∀ (ls : List String) (j : Nat), 4 * j + 3 < ls.length →
    (parseGitLogLines ls).get? j =
      some ⟨ls.getD (4 * j) "", ls.getD (4 * j + 1) "",
            ls.getD (4 * j + 2) "", ls.getD (4 * j + 3) ""⟩
  | [], j, h => by simp at h
  | [_], j, h => by simp only [List.length_cons, List.length_nil] at h; omega
  | [_, _], j, h => by simp only [List.length_cons, List.length_nil] at h; omega
  | [_, _, _], j, h => by simp only [List.length_cons, List.length_nil] at h; omega
  | a :: b :: c :: d :: rest, 0, h => by
      simp [parseGitLogLines]
  | a :: b :: c :: d :: rest, j + 1, h => by
      have h' : 4 * j + 3 < rest.length := by
        simp only [List.length_cons] at h; omega
      have ih := parseGitLogLines_get? rest j h'
      have e0 : 4 * (j + 1) = 4 * j + 3 + 1 := by omega
      have e1 : 4 * (j + 1) + 1 = 4 * j + 3 + 2 := by omega
      have e2 : 4 * (j + 1) + 2 = 4 * j + 3 + 3 := by omega
      have e3 : 4 * (j + 1) + 3 = 4 * j + 3 + 4 := by omega
      simp only [parseGitLogLines, List.get?_cons_succ, ih, e0, e1, e2, e3]
      simp [List.getD]

/-- C6: `git_log` returns the empty list when the command exits nonzero or
produces no (stripped) output; otherwise it parses the output into commit
records, one per group of four consecutive lines (hash, short hash, date,
message) in output order, producing exactly `n / 4` complete records from
`n` lines and dropping any incomplete trailing group. -/
theorem git_log_spec (exec : Exec) (vault_path : String) (count : Nat) :
    ((exec (gitLogCmd count) (some vault_path)).returncode ≠ 0 →
      git_log exec vault_path count = []) ∧
    (pyStrip (exec (gitLogCmd count) (some vault_path)).stdout = "" →
      git_log exec vault_path count = []) ∧
    ((exec (gitLogCmd count) (some vault_path)).returncode = 0 →
      pyStrip (exec (gitLogCmd count) (some vault_path)).stdout ≠ "" →
      git_log exec vault_path count = _parse_git_log (exec (gitLogCmd count) (some vault_path)).stdout) ∧
    (∀ output : String,
      (_parse_git_log output).length = (pySplitNl (pyStrip output)).length / 4) ∧
    (∀ (output : String) (j : Nat),
      4 * j + 3 < (pySplitNl (pyStrip output)).length →
      (_parse_git_log output).get? j =
        some ⟨(pySplitNl (pyStrip output)).getD (4 * j) "",
              (pySplitNl (pyStrip output)).getD (4 * j + 1) "",
              (pySplitNl (pyStrip output)).getD (4 * j + 2) "",
              (pySplitNl (pyStrip output)).getD (4 * j + 3) ""⟩) := by
  refine ⟨?_, ?_, ?_, ?_, ?_⟩
  · intro h; simp [git_log, h]
  · intro h; simp [git_log, h]
  · intro h1 h2; simp [git_log, h1, h2]
  · intro output; exact parseGitLogLines_length _
  · intro output j h; exact parseGitLogLines_get? _ j h

/-- C6 witness: a concrete failing command yields the empty commit list. -/
theorem git_log_spec_witness : git_log execFail "/vault" 20 = [] :=
  (git_log_spec execFail "/vault" 20).1 (by decide)

/-- C5: `git_show_file` returns the command's stdout exactly when the
underlying `git show` exits with status 0, and raises `FileNotFoundError` if
and only if the command exits nonzero; it never returns content in the
failure case. -/
theorem git_show_file_spec (exec : Exec) (vault_path commit filepath : String) :
    ((exec (gitShowCmd commit filepath) (some vault_path)).returncode = 0 →
      git_show_file exec vault_path commit filepath =
        .ok (exec (gitShowCmd commit filepath) (some vault_path)).stdout) ∧
    ((∃ m, git_show_file exec vault_path commit filepath = .error (.fileNotFoundError m)) ↔
      (exec (gitShowCmd commit filepath) (some vault_path)).returncode ≠ 0) ∧
    (∀ c, git_show_file exec vault_path commit filepath = .ok c →
      (exec (gitShowCmd commit filepath) (some vault_path)).returncode = 0 ∧
        c = (exec (gitShowCmd commit filepath) (some vault_path)).stdout) := by
  by_cases h : (exec (gitShowCmd commit filepath) (some vault_path)).returncode = 0 <;>
    simp [git_show_file, h]

/-- C5 witness: a concrete succeeding command returns its stdout. -/
theorem git_show_file_spec_witness :
    git_show_file (execConst "# My Note\n") "/vault" "abc123d" "notes/daily.md" =
      .ok "# My Note\n" :=
  (git_show_file_spec (execConst "# My Note\n") "/vault" "abc123d" "notes/daily.md").1 rfl

/-- C3: round-trip of restore against show — whenever `git_show_file`
succeeds with some content, `git_restore_file` on the same commit and path
succeeds, returns the target path, and the target afterwards holds exactly
that content; likewise `restic_restore_file` writes to the target exactly
the content `restic dump` produces (the content `restic_show_file` returns)
and returns the target path. -/
theorem restore_roundtrip (exec : Exec) (fs : FS)
    (vault_path commit filepath target snapshot_id rfilepath rtarget : String) :
    (∀ content, git_show_file exec vault_path commit filepath = .ok content →
      ∃ fs', git_restore_file exec fs vault_path commit filepath target = .ok (target, fs') ∧
        fs' target = some content) ∧
    (∀ content, restic_show_file exec snapshot_id rfilepath = .ok content →
      ∃ fs', restic_restore_file exec fs snapshot_id rfilepath rtarget = .ok (rtarget, fs') ∧
        fs' rtarget = some content) := by
  constructor
  · intro content h
    refine ⟨fun p => if p = target then some content else fs p, ?_, by simp⟩
    simp [git_restore_file, h]
  · intro content h
    by_cases hr : (exec (resticDumpCmd snapshot_id rfilepath) none).returncode = 0
    · simp [restic_show_file, hr] at h
      refine ⟨fun p => if p = rtarget then some content else fs p, ?_, by simp⟩
      simp [restic_restore_file, hr, h]
    · simp [restic_show_file, hr] at h
/-- C3 witness: with a concrete command executor producing fixed content,
restoring writes exactly that content to the target. -/
theorem restore_roundtrip_witness :
    ∃ fs', git_restore_file (execConst "# Note\n") emptyFS "/vault" "abc123d"
        "notes/daily.md" "out.md" = .ok ("out.md", fs') ∧
      fs' "out.md" = some "# Note\n" :=
  (restore_roundtrip (execConst "# Note\n") emptyFS "/vault" "abc123d" "notes/daily.md"
    "out.md" "abcdef12" "/vault/n.md" "r.md").1 "# Note\n" rfl

-- --- Helper lemma on the state-initialization fold ---

lemma foldl_writeIfAbsent : ∀ (l : List (String × String)) (fs : FS) (name : String),
    l.foldl writeIfAbsent fs name =
      match fs name with
      | some v => some v
      | none => (l.find? (fun kv => kv.1 == name)).map Prod.snd
  | [], fs, name => by cases h : fs name <;> simp [h]
  | kv :: rest, fs, name => by
      have ih := foldl_writeIfAbsent rest (writeIfAbsent fs kv) name
      simp only [List.foldl_cons]
      rw [ih]
      by_cases hk : (fs kv.1).isSome
      · have hfs : writeIfAbsent fs kv = fs := by simp [writeIfAbsent, hk]
        rw [hfs]
        cases hf : fs name with
        | some v => simp
        | none =>
          by_cases hn : kv.1 == name
          · have he : kv.1 = name := by simpa using hn
            rw [he, hf] at hk
            simp at hk
          · simp [List.find?, hn]
      · have h0 : fs kv.1 = none := by
          cases hfk : fs kv.1 with
          | none => rfl
          | some v => rw [hfk] at hk; simp at hk
        have hfs : writeIfAbsent fs kv = fun q => if q = kv.1 then some kv.2 else fs q := by
          simp [writeIfAbsent, h0]
        rw [hfs]
        by_cases hn : name = kv.1
        · subst hn
          simp [h0, List.find?]
        · have hb : (kv.1 == name) = false := by
            simp only [beq_eq_false_iff_ne, ne_eq]
            exact fun he => hn he.symm
          simp only [if_neg hn]
          cases hf : fs name <;> simp [List.find?, hb]

/-- C4: `initialize_state_dir` establishes exactly the four plain-text state
markers `last_commit`, `last_backup`, `last_change`, `pending_changes` with
defaults "0", "0", "0", "false": a marker that already exists keeps its
content unchanged, a missing marker receives its default, any other path is
untouched, and after the call every marker exists. -/
theorem initialize_state_dir_spec (fs : FS) (name : String) :
    (state_defaults = [("last_commit", "0"), ("last_backup", "0"), ("last_change", "0"),
      ("pending_changes", "false")]) ∧
    (∀ v, fs name = some v → initialize_state_dir fs name = some v) ∧
    (fs name = none → initialize_state_dir fs name =
      (state_defaults.find? (fun kv => kv.1 == name)).map Prod.snd) ∧
    (name ∈ state_defaults.map Prod.fst → (initialize_state_dir fs name).isSome) := by
  refine ⟨rfl, ?_, ?_, ?_⟩
  · intro v hv
    rw [initialize_state_dir, foldl_writeIfAbsent, hv]
  · intro hv
    rw [initialize_state_dir, foldl_writeIfAbsent, hv]
  · intro hmem
    cases hv : fs name with
    | some v =>
      rw [initialize_state_dir, foldl_writeIfAbsent, hv]; rfl
    | none =>
      rw [initialize_state_dir, foldl_writeIfAbsent, hv]
      simp only [List.mem_map] at hmem
      obtain ⟨kv, hkv, hfst⟩ := hmem
      have hs : (state_defaults.find? (fun kv => kv.1 == name)).isSome := by
        rw [List.find?_isSome]
        exact ⟨kv, hkv, by simp [hfst]⟩
      cases hfind : state_defaults.find? (fun kv => kv.1 == name) with
      | none => rw [hfind] at hs; simp at hs
      | some p => simp [hfind]

/-- C4 witness: a state directory already holding `last_commit = "42"` keeps
it unchanged by initialization. -/
theorem initialize_state_dir_spec_witness :
    initialize_state_dir (fun n => if n = "last_commit" then some "42" else none)
      "last_commit" = some "42" :=
  (initialize_state_dir_spec (fun n => if n = "last_commit" then some "42" else none)
    "last_commit").2.1 "42" rfl

/-- C8: `validate_environment` terminates the process with exit status 1
(modelled as `.error 1`) exactly when `RESTIC_REPOSITORY` or
`RESTIC_PASSWORD` is unset or empty, and returns normally exactly when both
are set and non-empty. -/
theorem validate_environment_spec (env : String → Option String) :
    (∀ var, envMissing env var = true ↔ (env var = none ∨ env var = some "")) ∧
    (validate_environment env = .error 1 ↔
      (envMissing env "RESTIC_REPOSITORY" = true ∨ envMissing env "RESTIC_PASSWORD" = true)) ∧
    (validate_environment env = .ok () ↔
      (envMissing env "RESTIC_REPOSITORY" = false ∧ envMissing env "RESTIC_PASSWORD" = false)) := by
  refine ⟨?_, ?_, ?_⟩
  · intro var
    cases h : env var with
    | none => simp [envMissing, h]
    | some s => simp [envMissing, h]
  · by_cases m1 : envMissing env "RESTIC_REPOSITORY" <;>
      by_cases m2 : envMissing env "RESTIC_PASSWORD" <;>
      simp [validate_environment, requiredEnvVars, List.filter, m1, m2]
  · by_cases m1 : envMissing env "RESTIC_REPOSITORY" <;>
      by_cases m2 : envMissing env "RESTIC_PASSWORD" <;>
      simp [validate_environment, requiredEnvVars, List.filter, m1, m2]

/-- C8 witness: with both variables set and non-empty, startup continues
normally. -/
theorem validate_environment_spec_witness :
    validate_environment (fun v => if v = "RESTIC_REPOSITORY" then some "azure:vault"
      else if v = "RESTIC_PASSWORD" then some "secret" else none) = .ok () :=
  (validate_environment_spec (fun v => if v = "RESTIC_REPOSITORY" then some "azure:vault"
    else if v = "RESTIC_PASSWORD" then some "secret" else none)).2.2.mpr ⟨rfl, rfl⟩

-- --- Helper lemmas on restic snapshot parsing ---

lemma snapshot_of_item_good (s : JVal) (h : GoodSnapItem s) :
    snapshot_of_item s = .ok (goodSnapshot s) := by
  obtain ⟨fields, idStr, timev, rfl, hid, htime⟩ := h
  obtain ⟨kv1, hf1, hv1⟩ :
      ∃ kv, fields.find? (fun kv => kv.1 == "id") = some kv ∧ kv.2 = JVal.jstr idStr := by
    unfold objLookup at hid
    cases hf : fields.find? (fun kv => kv.1 == "id") with
    | none => rw [hf] at hid; simp at hid
    | some kv => rw [hf] at hid; simp at hid; exact ⟨kv, rfl, hid⟩
  obtain ⟨kv2, hf2, hv2⟩ :
      ∃ kv, fields.find? (fun kv => kv.1 == "time") = some kv ∧ kv.2 = timev := by
    unfold objLookup at htime
    cases hf : fields.find? (fun kv => kv.1 == "time") with
    | none => rw [hf] at htime; simp at htime
    | some kv => rw [hf] at htime; simp at htime; exact ⟨kv, rfl, htime⟩
  simp [snapshot_of_item, pySubscript, hf1, hv1, hf2, hv2, pySliceTo8, pyGet,
        goodSnapshot, hid, htime, Bind.bind, Except.bind, pure, Except.pure]

lemma snapshots_of_items_good : ∀ elems : List JVal, (∀ s ∈ elems, GoodSnapItem s) →
    snapshots_of_items elems = .ok (elems.map goodSnapshot)
  | [], _ => rfl
  | s :: rest, h => by
    have hs := snapshot_of_item_good s (h s (by simp))
    have ih := snapshots_of_items_good rest (fun x hx => h x (by simp [hx]))
    simp [snapshots_of_items, hs, ih, Bind.bind, Except.bind, pure, Except.pure]

/-- C9 counterexample: the command succeeds printing the valid JSON array
holding one empty object, yet `restic_snapshots` raises `KeyError("id")`
instead of returning a record for the element. -/
theorem restic_snapshots_raises_on_missing_id :
    (execSnapEmptyObj (resticSnapshotsCmd "obsidian") none).returncode = 0 ∧
    restic_snapshots execSnapEmptyObj jsonParseEmptyObjArr "obsidian" =
      .error (.keyError "id") :=
  ⟨rfl, rfl⟩

/-- C9 amended: `restic_snapshots` returns the empty list on a nonzero exit
status, on empty output, and on output `json.loads` rejects; on a valid
JSON array each of whose elements is an object holding a string "id" and a
"time" field it returns one snapshot record per element in order, a missing
"short_id" defaulting to the first 8 characters of the id and missing
"paths"/"tags" to empty lists (an element without "id" instead raises
`KeyError`, per the counterexample). -/
theorem restic_snapshots_amended (exec : Exec) (jsonParse : JsonParse) (tag : String) :
    ((exec (resticSnapshotsCmd tag) none).returncode ≠ 0 →
      restic_snapshots exec jsonParse tag = .ok []) ∧
    (pyStrip (exec (resticSnapshotsCmd tag) none).stdout = "" →
      restic_snapshots exec jsonParse tag = .ok []) ∧
    ((exec (resticSnapshotsCmd tag) none).returncode = 0 →
      jsonParse (exec (resticSnapshotsCmd tag) none).stdout = none →
      restic_snapshots exec jsonParse tag = .ok []) ∧
    (∀ elems, (exec (resticSnapshotsCmd tag) none).returncode = 0 →
      pyStrip (exec (resticSnapshotsCmd tag) none).stdout ≠ "" →
      jsonParse (exec (resticSnapshotsCmd tag) none).stdout = some (.jarr elems) →
      (∀ s ∈ elems, GoodSnapItem s) →
      restic_snapshots exec jsonParse tag = .ok (elems.map goodSnapshot)) := by
  refine ⟨?_, ?_, ?_, ?_⟩
  · intro h; simp [restic_snapshots, h]
  · intro h; simp [restic_snapshots, h]
  · intro h0 hp
    by_cases hs : pyStrip (exec (resticSnapshotsCmd tag) none).stdout = "" <;>
      simp [restic_snapshots, h0, hs, hp]
  · intro elems h0 hne hp hgood
    simp [restic_snapshots, h0, hne, hp, pyIterate, Bind.bind, Except.bind,
      snapshots_of_items_good elems hgood]

/-- C9 witness: a concrete snapshot element with no "short_id" yields a
record whose short id is the first 8 characters of the id. -/
theorem restic_snapshots_amended_witness :
    restic_snapshots execSnapOne jsonParseSnapOne "obsidian" =
      .ok [⟨.jstr "abcdef1234567890", .jstr "abcdef12", .jstr "2025-01-15T00:00:00Z",
        .jarr [], .jarr []⟩] := by
  have h := (restic_snapshots_amended execSnapOne jsonParseSnapOne "obsidian").2.2.2
    [.jobj snapOneFields] rfl (by decide) rfl
    (by
      intro s hs
      simp only [List.mem_singleton] at hs
      subst hs
      exact ⟨snapOneFields, "abcdef1234567890", .jstr "2025-01-15T00:00:00Z", rfl, rfl, rfl⟩)
  rw [h]
  rfl

-- --- Helper lemmas on restic ls line processing ---

lemma restic_ls_line_obj (fields : List (String × JVal)) :
    restic_ls_line (.jobj fields) =
      .ok (if isSnapshotMeta fields then none else some (objEntry fields)) := by
  by_cases hmem : fields.any (fun kv => kv.1 == "struct_type")
  · have hsome : (fields.find? (fun kv => kv.1 == "struct_type")).isSome := by
      rw [List.find?_isSome]
      rw [List.any_eq_true] at hmem
      exact hmem
    cases hf : fields.find? (fun kv => kv.1 == "struct_type") with
    | none => rw [hf] at hsome; simp at hsome
    | some kv =>
      have hl : objLookup fields "struct_type" = some kv.2 := by simp [objLookup, hf]
      by_cases hsnap : pyEqStr kv.2 "snapshot" <;>
        simp [restic_ls_line, pyIn, hmem, pySubscript, hf, entry_of_obj, pyGet,
              isSnapshotMeta, hl, objEntry, hsnap, Bind.bind, Except.bind, pure, Except.pure]
  · simp [restic_ls_line, pyIn, hmem, isSnapshotMeta, entry_of_obj, pyGet, objEntry,
          Bind.bind, Except.bind, pure, Except.pure]

lemma restic_ls_line_not_ve (obj : JVal) (m : String) :
    restic_ls_line obj ≠ .error (.valueError m) := by
  cases obj with
  | jobj fields => rw [restic_ls_line_obj]; split <;> simp
  | jarr xs =>
    by_cases h : xs.any (fun x => pyEqStr x "struct_type") <;>
      simp [restic_ls_line, pyIn, h, pySubscript, entry_of_obj, pyGet,
            Bind.bind, Except.bind, pure, Except.pure]
  | jstr t =>
    by_cases h : strContains t "struct_type" <;>
      simp [restic_ls_line, pyIn, h, pySubscript, entry_of_obj, pyGet,
            Bind.bind, Except.bind, pure, Except.pure]
  | jnull => simp [restic_ls_line, pyIn, Bind.bind, Except.bind]
  | jbool b => simp [restic_ls_line, pyIn, Bind.bind, Except.bind]
  | jnum n => simp [restic_ls_line, pyIn, Bind.bind, Except.bind]

lemma restic_ls_lines_not_ve (jsonParse : JsonParse) : ∀ (lines : List String)
    (acc : List ResticEntry) (m : String),
    restic_ls_lines jsonParse lines acc ≠ .error (.valueError m)
  | [], acc, m => by simp [restic_ls_lines]
  | line :: rest, acc, m => by
    simp only [restic_ls_lines]
    split
    · exact restic_ls_lines_not_ve jsonParse rest acc m
    · split
      · exact restic_ls_lines_not_ve jsonParse rest acc m
      · next obj hobj =>
          split
          · next e heq =>
              intro hc
              injection hc with hc
              rw [hc] at heq
              exact restic_ls_line_not_ve obj m heq
          · exact restic_ls_lines_not_ve jsonParse rest acc m
          · next e heq => exact restic_ls_lines_not_ve jsonParse rest (acc ++ [e]) m

lemma restic_ls_lines_good (jsonParse : JsonParse) : ∀ (lines : List String)
    (acc : List ResticEntry),
    (∀ line ∈ lines, pyStrip line = "" ∨ jsonParse line = none ∨
      ∃ fields, jsonParse line = some (.jobj fields)) →
    restic_ls_lines jsonParse lines acc =
      .ok (acc ++ lines.filterMap (lineEntry jsonParse))
  | [], acc, _ => by simp [restic_ls_lines]
  | line :: rest, acc, h => by
    have ihh : ∀ x ∈ rest, pyStrip x = "" ∨ jsonParse x = none ∨
        ∃ fields, jsonParse x = some (.jobj fields) :=
      fun x hx => h x (by simp [hx])
    by_cases hb : pyStrip line = ""
    · have ih := restic_ls_lines_good jsonParse rest acc ihh
      simp [restic_ls_lines, hb, lineEntry, ih]
    · rcases h line (by simp) with h1 | h2 | ⟨fields, h3⟩
      · exact absurd h1 hb
      · have ih := restic_ls_lines_good jsonParse rest acc ihh
        simp [restic_ls_lines, hb, h2, lineEntry, ih]
      · by_cases hmeta : isSnapshotMeta fields
        · have ih := restic_ls_lines_good jsonParse rest acc ihh
          simp [restic_ls_lines, hb, h3, restic_ls_line_obj, hmeta, lineEntry, ih]
        · have ih := restic_ls_lines_good jsonParse rest (acc ++ [objEntry fields]) ihh
          simp [restic_ls_lines, hb, h3, restic_ls_line_obj, hmeta, lineEntry, ih]

lemma filterByPath_not_ve : ∀ (entries : List ResticEntry) (stem m : String),
    filterByPath entries stem ≠ .error (.valueError m)
  | [], _, m => by simp [filterByPath]
  | e :: rest, stem, m => by
    cases hp : e.path <;>
      simp only [filterByPath, hp, pyStartswith, Bind.bind, Except.bind] <;>
      try simp
    case jstr t =>
      cases hr : filterByPath rest stem with
      | error e2 =>
        intro hcontra
        apply filterByPath_not_ve rest stem m
        rw [hr]
        exact congrArg Except.error (by injection hcontra)
      | ok tail => simp [pure, Except.pure]

lemma filterByPath_str : ∀ (entries : List ResticEntry) (stem : String),
    (∀ e ∈ entries, ∃ s, e.path = .jstr s) →
    filterByPath entries stem = .ok (entries.filter (fun e =>
      match e.path with
      | .jstr s => strStartsWith s stem
      | _ => false))
  | [], _, _ => rfl
  | e :: rest, stem, h => by
    obtain ⟨s, hs⟩ := h e (by simp)
    have ih := filterByPath_str rest stem (fun x hx => h x (by simp [hx]))
    by_cases hsw : strStartsWith s stem <;>
      simp [filterByPath, hs, pyStartswith, ih, hsw, List.filter,
            Bind.bind, Except.bind, pure, Except.pure]

/-- C7 counterexample: the command succeeds (exit status 0) printing the
single well-formed JSON line `5`, yet `restic_ls` raises a `TypeError`
instead of returning an entry for that line. -/
theorem restic_ls_raises_on_nonobject_line :
    (execLsNum (resticLsCmd "abcdef12") none).returncode = 0 ∧
    restic_ls execLsNum jsonParseNum "abcdef12" "/" = .error .typeError :=
  ⟨rfl, rfl⟩

/-- C7 amended: `restic_ls` raises `ValueError` if and only if the
underlying command exits nonzero; on success it returns one
(path, kind, size, mtime) entry per line that parses to a JSON object,
skipping the snapshot metadata line and skipping blank or malformed lines
without raising (a line parsing to well-formed non-object JSON instead
raises a `TypeError` or `AttributeError`, per the counterexample). -/
theorem restic_ls_amended (exec : Exec) (jsonParse : JsonParse) (snapshot_id path : String) :
    ((∃ m, restic_ls exec jsonParse snapshot_id path = .error (.valueError m)) ↔
      (exec (resticLsCmd snapshot_id) none).returncode ≠ 0) ∧
    ((exec (resticLsCmd snapshot_id) none).returncode = 0 →
      (∀ line ∈ pySplitNl (pyStrip (exec (resticLsCmd snapshot_id) none).stdout),
        pyStrip line = "" ∨ jsonParse line = none ∨
          ∃ fields, jsonParse line = some (.jobj fields)) →
      restic_ls exec jsonParse snapshot_id "/" =
        .ok ((pySplitNl (pyStrip (exec (resticLsCmd snapshot_id) none).stdout)).filterMap
          (lineEntry jsonParse))) := by
  constructor
  · constructor
    · rintro ⟨m, hm⟩
      rcases eq_or_ne (exec (resticLsCmd snapshot_id) none).returncode 0 with h0 | h0
      swap
      · exact h0
      exfalso
      rw [restic_ls] at hm
      simp only [h0] at hm
      cases hv : restic_ls_lines jsonParse
          (pySplitNl (pyStrip (exec (resticLsCmd snapshot_id) none).stdout)) [] with
      | error e =>
        rw [hv] at hm
        simp [Bind.bind, Except.bind] at hm
        exact restic_ls_lines_not_ve jsonParse _ [] m (by rw [hv, hm])
      | ok entries =>
        rw [hv] at hm
        simp only [Bind.bind, Except.bind] at hm
        by_cases hp : path ≠ "/"
        · rw [if_pos hp] at hm
          exact filterByPath_not_ve entries (rstripSlash path) m hm
        · rw [if_neg hp] at hm
          simp [pure, Except.pure] at hm
    · intro h0
      exact ⟨s!"Snapshot '{snapshot_id}' not found", by simp [restic_ls, h0]⟩
  · intro h0 hl
    rw [restic_ls]
    simp only [h0, ne_eq, not_true_eq_false, if_false]
    rw [restic_ls_lines_good jsonParse _ [] hl]
    simp [Bind.bind, Except.bind, pure, Except.pure]

/-- C7 witness: a concrete nonzero exit status yields the `ValueError`. -/
theorem restic_ls_amended_witness :
    ∃ m, restic_ls execFail jsonParseNum "badid123" "/" = .error (.valueError m) :=
  (restic_ls_amended execFail jsonParseNum "badid123" "/").1.mpr (by decide)

/-- C10: for every path argument other than "/", `restic_ls` filters the
entry list by plain string prefix after stripping trailing slashes: an
entry is kept if and only if its path string starts with the stripped
argument, so entries in sibling directories whose names merely extend it
(such as `/vault/notes-old/x.md` for `/vault/notes`) are also kept; with
"/" no filtering occurs. -/
theorem restic_ls_path_filter_spec (exec : Exec) (jsonParse : JsonParse)
    (snapshot_id : String) :
    (∀ path, path ≠ "/" →
      restic_ls exec jsonParse snapshot_id path =
        (restic_ls exec jsonParse snapshot_id "/").bind
          (fun entries => filterByPath entries (rstripSlash path))) ∧
    (∀ entries stem, (∀ e ∈ entries, ∃ s, e.path = .jstr s) →
      filterByPath entries stem = .ok (entries.filter (fun e =>
        match e.path with
        | .jstr s => strStartsWith s stem
        | _ => false))) ∧
    (rstripSlash "/vault/notes" = "/vault/notes" ∧
      strStartsWith "/vault/notes-old/x.md" "/vault/notes" = true ∧
      strStartsWith "/vault/templates/t.md" "/vault/notes" = false) := by
  refine ⟨?_, fun entries stem h => filterByPath_str entries stem h, by decide⟩
  intro path hp
  rw [restic_ls, restic_ls]
  by_cases h0 : (exec (resticLsCmd snapshot_id) none).returncode = 0
  · simp only [h0, ne_eq, not_true_eq_false, if_false]
    cases hv : restic_ls_lines jsonParse
        (pySplitNl (pyStrip (exec (resticLsCmd snapshot_id) none).stdout)) [] with
    | error e => simp [Bind.bind, Except.bind]
    | ok entries => simp [Bind.bind, Except.bind, hp, pure, Except.pure]
  · simp [h0, Bind.bind, Except.bind]

/-- C10 witness: filtering three concrete entries by `/vault/notes` keeps
the entry under that directory and the sibling whose name merely extends
it, and drops the unrelated one. -/
theorem restic_ls_path_filter_spec_witness :
    filterByPath [entryNotes, entrySibling, entryTemplates] "/vault/notes" =
      .ok [entryNotes, entrySibling] := by
  have h := (restic_ls_path_filter_spec execFail jsonParseNum "abcdef12").2.1
    [entryNotes, entrySibling, entryTemplates] "/vault/notes"
    (by
      intro e he
      simp only [entryNotes, entrySibling, entryTemplates, List.mem_cons,
        List.mem_singleton, List.not_mem_nil, or_false] at he
      rcases he with rfl | rfl | rfl <;> exact ⟨_, rfl⟩)
  rw [h]
  rfl

/-- C2: for a source identifier classified as ambiguous, `cmd_restore`
first attempts the git restore and on success reports a restore from a git
commit without running the restic command; only when the git attempt raises
its not-found error does it attempt the restic restore, reporting a restore
from a restic snapshot on success; when both fail it prints an error to
stderr and exits with status 1. -/
theorem cmd_restore_ambiguous_spec (exec : Exec) (fs : FS)
    (vault source filepath output : String)
    (hamb : detect_source source = "ambiguous") :
    (∀ t fs', git_restore_file exec fs vault source filepath output = .ok (t, fs') →
      cmd_restore exec fs vault source filepath output =
        ⟨[s!"Restored {filepath} from git commit {source} -> {output}"], [], none, fs',
          [gitShowCmd source filepath]⟩) ∧
    (∀ e t fs', git_restore_file exec fs vault source filepath output = .error e →
      restic_restore_file exec fs source filepath output = .ok (t, fs') →
      cmd_restore exec fs vault source filepath output =
        ⟨[s!"Restored {filepath} from restic snapshot {source} -> {output}"], [], none, fs',
          [gitShowCmd source filepath, resticDumpCmd source filepath]⟩) ∧
    (∀ e e2, git_restore_file exec fs vault source filepath output = .error e →
      restic_restore_file exec fs source filepath output = .error e2 →
      cmd_restore exec fs vault source filepath output =
        ⟨[], [s!"error: '{filepath}' not found in git commit or restic snapshot '{source}'"],
          some 1, fs, [gitShowCmd source filepath, resticDumpCmd source filepath]⟩) := by
  refine ⟨?_, ?_, ?_⟩
  · intro t fs' hg
    simp [cmd_restore, hamb, hg]
  · intro e t fs' hg hr
    simp [cmd_restore, hamb, hg, hr]
  · intro e e2 hg hr
    simp [cmd_restore, hamb, hg, hr]

/-- C2 witness: with an ambiguous 8-hex source and a git command that
succeeds, the restore is reported from the git commit and the restic
command is never run. -/
theorem cmd_restore_ambiguous_spec_witness :
    cmd_restore (execConst "content") emptyFS "/vault" "abcdef12" "n.md" "out.md" =
      ⟨["Restored n.md from git commit abcdef12 -> out.md"], [], none,
        fun p => if p = "out.md" then some "content" else emptyFS p,
        [gitShowCmd "abcdef12" "n.md"]⟩ :=
  (cmd_restore_ambiguous_spec (execConst "content") emptyFS "/vault" "abcdef12" "n.md"
    "out.md" rfl).1 "out.md"
    (fun p => if p = "out.md" then some "content" else emptyFS p) rfl

end VaultBackup
